import Mathlib

/-!
Shallow embedding of the facto dashboard real-time subsystem
(`src/dashboard/server/sync-meilisearch.ts`): the Meilisearch index
synchronizer (backfill batch loop and incremental change handler) and the
WebSocket broadcast server (subscription-filtered fan-out of message change
events and global `new_group` announcements).

Modelling conventions: Mongo `ObjectId` values appear in the code only via
`toString()`, so identities are `String`; JS `Date`-or-raw values are the
inductive `BsonDate` (a `Date` instance normalizes to its ISO string, any
other value passes through); optional JS fields are `Option`; the JS
truthiness test on a numeric `chatId` (`chatId && ...`) is `jsTruthyInt`
(false exactly on `undefined` and `0`); the Meilisearch index is the
identity-keyed map `MeiliState`.
-/

/-- A BSON/JS value that the sync script treats with
`v instanceof Date ? v.toISOString() : v`: either a `Date` object (carrying
its ISO rendering) or any other raw value. -/
inductive BsonDate
  | dateObj (iso : String)
  | rawVal (v : String)
  deriving DecidableEq

/-- `msg.date instanceof Date ? msg.date.toISOString() : msg.date`. -/
def normDate : BsonDate → String
  | .dateObj iso => iso
  | .rawVal v => v

/-- The optional `from_user` sub-object of a message record
(`MessageDocument.from_user` in the TS interface). -/
structure FromUser where
  id : Int
  first_name : Option String
  last_name : Option String
  username : Option String
  deriving DecidableEq

/-- A message record as stored in the `messages` collection
(TS interface `MessageDocument`; `_id` is the `ObjectId` rendered via
`toString()`). -/
structure MsgRecord where
  _id : String
  message_id : Int
  chat_id : Int
  date : BsonDate
  from_user : Option FromUser
  text : Option String
  caption : Option String
  logged_at : BsonDate
  was_edited : Option Bool
  deriving DecidableEq

/-- A document as written to the Meilisearch `messages` index. -/
structure IndexDoc where
  id : String
  _id : String
  message_id : Int
  chat_id : Int
  date : String
  from_user : Option FromUser
  text : Option String
  caption : Option String
  logged_at : String
  was_edited : Bool
  deriving DecidableEq

/-- JS `x || false` on the optional `was_edited` field. -/
def jsOrFalse : Option Bool → Bool
  | some b => b
  | none => false

/-- The per-record transform shared by `syncMessages` (lines 85-99) and the
`watchAndSync` change handler (lines 139-156): build the Meilisearch
document from a Mongo message record. -/
def transformMessage (m : MsgRecord) : IndexDoc :=
  { id := m._id
    _id := m._id
    message_id := m.message_id
    chat_id := m.chat_id
    date := normDate m.date
    from_user := m.from_user
    text := m.text
    caption := m.caption
    logged_at := normDate m.logged_at
    was_edited := jsOrFalse m.was_edited }

/-- The Meilisearch `messages` index, as a map from primary key `id` to the
stored document. -/
def MeiliState : Type := String → Option IndexDoc

/-- The empty index. -/
def emptyIndex : MeiliState := fun _ => none

/-- `index.addDocuments([d], { primaryKey: 'id' })` for one document:
upsert keyed by `id`. -/
def upsertDoc (k : String) (d : IndexDoc) (st : MeiliState) : MeiliState :=
  fun q => if q = k then some d else st q

/-- `index.deleteDocument(k)`: remove by primary key; removing an absent key
is accepted by Meilisearch and leaves the index unchanged. -/
def removeDoc (k : String) (st : MeiliState) : MeiliState :=
  fun q => if q = k then none else st q

/-- `index.addDocuments(docs, { primaryKey: 'id' })` for a batch: upsert each
document of the batch by its `id`, in order. -/
def addDocumentsM (docs : List IndexDoc) (st : MeiliState) : MeiliState :=
  docs.foldl (fun s d => upsertDoc d.id d s) st

/-- Mongo change-stream operation types distinguished by the handlers; every
operation type outside insert/update/delete falls into the handlers'
`default` branch and is modelled as `invalidate`. -/
inductive OpType
  | insert
  | update
  | delete
  | invalidate
  deriving DecidableEq

/-- A change-stream notification on the `messages` collection:
`{operationType, documentKey, fullDocument?}` with `documentKey._id`
rendered via `toString()`. -/
structure MsgChange where
  operationType : OpType
  documentKey : String
  fullDocument : Option MsgRecord
  deriving DecidableEq

/-- The `watchAndSync` change handler body (lines 135-166): insert/update
with a full document upsert its transform by identity; delete removes by
`documentKey`; anything else is ignored. -/
def syncChange (c : MsgChange) (st : MeiliState) : MeiliState :=
  match c.operationType with
  | .insert | .update =>
      match c.fullDocument with
      | some d => upsertDoc (transformMessage d).id (transformMessage d) st
      | none => st
  | .delete => removeDoc c.documentKey st
  | .invalidate => st

/-- The `watchAndSync` handler with its surrounding `try/catch` (lines
133-170): `ok c = false` models the index write for `c` throwing, in which
case the error is logged and the state is left unchanged. -/
def syncChangeGuarded (ok : MsgChange → Bool) (c : MsgChange) (st : MeiliState) :
    MeiliState :=
  if ok c then syncChange c st else st

/-- Feed-order processing of a list of change notifications by the guarded
handler; each event is handled independently, so a caught failure on one
event does not stop the events after it. -/
def syncChangeList (ok : MsgChange → Bool) (cs : List MsgChange) (st : MeiliState) :
    MeiliState :=
  cs.foldl (fun s c => syncChangeGuarded ok c s) st

/-- The `syncMessages` backfill batch loop (lines 70-108): while
`skip < totalCount`, fetch the window `[skip, skip + batchSize)` of the
sorted record list, stop if it is empty (line 82), otherwise transform the
batch, add it to the index, and advance `processed` by the batch length,
`skip` by `batchSize`, and the batch counter by one. Returns the final
index state, `processed`, and the number of batches. -/
def syncMessagesLoop (msgs : List MsgRecord) (batchSize skip : Nat) (st : MeiliState) :
    MeiliState × Nat × Nat :=
  if hlt : skip < msgs.length then
    if hz : ((msgs.drop skip).take batchSize).length = 0 then (st, 0, 0)
    else
      let batch := (msgs.drop skip).take batchSize
      let st1 := addDocumentsM (batch.map transformMessage) st
      let r := syncMessagesLoop msgs batchSize (skip + batchSize) st1
      (r.1, batch.length + r.2.1, 1 + r.2.2)
  else (st, 0, 0)
termination_by msgs.length - skip
decreasing_by
  rw [List.length_take, List.length_drop] at hz
  omega

/-- `syncMessages` entry: the backfill runs the batch loop from `skip = 0`
over the whole sorted record list. -/
def syncMessages (msgs : List MsgRecord) (batchSize : Nat) (st : MeiliState) :
    MeiliState × Nat × Nat :=
  syncMessagesLoop msgs batchSize 0 st

/-- A connected viewer session as registered in the WebSocket server
(`ClientInfo`): its transport state (`isOpen` models
`ws.readyState === WebSocket.OPEN`) and its `subscribedChats` set. -/
structure Session where
  isOpen : Bool
  subscribedChats : Finset Int
  deriving DecidableEq

/-- JS truthiness of the optional numeric `chatId` as used in
`chatId && ...` and `message.chatId && ...`: false exactly when the value
is `undefined` or `0`. -/
def jsTruthyInt : Option Int → Bool
  | some c => decide (c ≠ 0)
  | none => false

/-- The payload of an outbound frame built by the message change handler
(lines 303-327): insert/update spread the (possibly absent) full document;
delete carries `{id, chat_id: undefined}`. -/
inductive OutPayload
  | docPayload (d : Option MsgRecord)
  | deletePayload (id : String) (chat_id : Option Int)
  deriving DecidableEq

/-- The `chat_id` property read back from the payload at line 335
(`(payload as { chat_id?: number }).chat_id`): present only when an
insert/update payload spread a full document; explicitly `undefined` on
delete payloads. -/
def OutPayload.chat_id : OutPayload → Option Int
  | .docPayload d => d.map MsgRecord.chat_id
  | .deletePayload _ c => c

/-- One outbound WebSocket frame `{type, payload}`. -/
structure OutFrame where
  type : String
  payload : OutPayload
  deriving DecidableEq

/-- The `switch (change.operationType)` of the broadcast handler (lines
303-327): build the frame for a message change, or nothing for operation
types that hit the `default: return`. -/
def frameOfChange (c : MsgChange) : Option OutFrame :=
  match c.operationType with
  | .insert => some ⟨"new_message", .docPayload c.fullDocument⟩
  | .delete => some ⟨"delete_message", .deletePayload c.documentKey none⟩
  | .update => some ⟨"update_message", .docPayload c.fullDocument⟩
  | .invalidate => none

/-- The per-client send condition of the broadcast (lines 336-339):
`client.subscribedChats.size === 0 || (chatId && client.subscribedChats.has(chatId))`. -/
def shouldSend (subs : Finset Int) (chatId : Option Int) : Bool :=
  decide (subs.card = 0) ||
    (jsTruthyInt chatId &&
      match chatId with
      | some c => decide (c ∈ subs)
      | none => false)

/-- Whether the broadcast of a message change delivers a frame to a given
session (lines 329-343): a frame must exist, the socket must be `OPEN`,
and the send condition must hold on the payload's `chat_id`. -/
def deliversChange (c : MsgChange) (s : Session) : Bool :=
  match frameOfChange c with
  | some f => s.isOpen && shouldSend s.subscribedChats f.payload.chat_id
  | none => false

/-- A record of the `activated_chats` collection (TS interface
`ActivatedChatDocument`). -/
structure ActivatedChat where
  _id : String
  chat_id : Int
  chat_title : Option String
  chat_type : Option String
  activated_at : BsonDate
  deriving DecidableEq

/-- A change-stream notification on the `activated_chats` collection. -/
structure ActChange where
  operationType : OpType
  fullDocument : Option ActivatedChat
  deriving DecidableEq

/-- The `new_group` payload built by the activated-chats handler (lines
364-371); `message_count` is the count query result. -/
structure GroupPayload where
  _id : String
  chat_id : Int
  chat_title : Option String
  chat_type : Option String
  activated_at : BsonDate
  message_count : Nat
  deriving DecidableEq

/-- The activated-chats change handler (lines 355-385): only
`insert` events with a full document produce a `new_group` frame. -/
def groupFrameOf (c : ActChange) (messageCount : Nat) : Option GroupPayload :=
  match c.operationType, c.fullDocument with
  | .insert, some d =>
      some ⟨d._id, d.chat_id, d.chat_title, d.chat_type, d.activated_at, messageCount⟩
  | _, _ => none

/-- Whether the activated-chats broadcast (lines 379-383) delivers the
`new_group` frame to a session: every client with an `OPEN` socket receives
it, with no subscription filter. -/
def deliversGroup (c : ActChange) (s : Session) : Bool :=
  match c.operationType, c.fullDocument with
  | .insert, some _ => s.isOpen
  | _, _ => false

/-- The `ws.on('close')` handler (lines 281-284): `clients.delete(clientInfo)`,
with sessions identified by their registry identity. -/
def onCloseHandler (reg : Finset Nat) (cid : Nat) : Finset Nat :=
  reg.erase cid

/-- The `ws.on('error')` handler (lines 286-289): also
`clients.delete(clientInfo)`. -/
def onErrorHandler (reg : Finset Nat) (cid : Nat) : Finset Nat :=
  reg.erase cid

/-- A parsed inbound control frame `{type, chatId}`; an unparseable frame
(invalid JSON, caught at line 276) is modelled as `none` at the call site. -/
structure ControlMsg where
  type : String
  chatId : Option Int
  deriving DecidableEq

/-- The `ws.on('message')` handler (lines 266-279) acting on one session's
subscription set: a parse failure changes nothing; `subscribe` with a
truthy `chatId` adds it; `unsubscribe` with a truthy `chatId` removes it;
everything else changes nothing. -/
def handleControlFrame (frame : Option ControlMsg) (subs : Finset Int) : Finset Int :=
  match frame with
  | none => subs
  | some m =>
      if m.type = "subscribe" ∧ jsTruthyInt m.chatId = true then
        match m.chatId with
        | some c => insert c subs
        | none => subs
      else if m.type = "unsubscribe" ∧ jsTruthyInt m.chatId = true then
        match m.chatId with
        | some c => subs.erase c
        | none => subs
      else subs

/-- The `message` handler at the registry level: only the receiving
session's set (`clientInfo.subscribedChats`) is touched; every other
session's set is untouched. -/
def handleControlReg (reg : Nat → Finset Int) (sid : Nat) (frame : Option ControlMsg) :
    Nat → Finset Int :=
  fun s => if s = sid then handleControlFrame frame (reg sid) else reg s

/-- One mutation of the message store restricted to a single identity:
insert with a document, update whose post-image (`fullDocument` under
`updateLookup`) is a document, or delete. -/
inductive StoreOp
  | ins (d : MsgRecord)
  | upd (d : MsgRecord)
  | del
  deriving DecidableEq

/-- The effect of a store mutation on the store state of one identity. -/
def applyStoreOp (_s : Option MsgRecord) (op : StoreOp) : Option MsgRecord :=
  match op with
  | .ins d => some d
  | .upd d => some d
  | .del => none

/-- The change-stream notification the store feed emits for a mutation of
identity `i` (store change-feed contract: `{operationType, documentKey,
fullDocument?}`, with the post-image attached for insert/update and no
document for delete). -/
def changeOfStoreOp (i : String) (op : StoreOp) : MsgChange :=
  match op with
  | .ins d => ⟨.insert, i, some d⟩
  | .upd d => ⟨.update, i, some d⟩
  | .del => ⟨.delete, i, none⟩

/-- A store mutation targets identity `i` when the document it carries has
`_id = i`. -/
def opTargets (i : String) : StoreOp → Prop
  | .ins d => d._id = i
  | .upd d => d._id = i
  | .del => True

/-- A concrete message record in chat 42 with identity `m1`, used to
instantiate the theorems. -/
def chat42Msg : MsgRecord :=
  { _id := "m1"
    message_id := 10
    chat_id := 42
    date := .dateObj "2024-01-02T03:04:05.000Z"
    from_user := none
    text := some "hi"
    caption := none
    logged_at := .dateObj "2024-01-02T03:04:06.000Z"
    was_edited := none }

/-- A concrete message record whose `chat_id` is the falsy number `0`. -/
def zeroChatMsg : MsgRecord :=
  { _id := "m0"
    message_id := 11
    chat_id := 0
    date := .rawVal "2024-01-02"
    from_user := none
    text := none
    caption := none
    logged_at := .rawVal "2024-01-02"
    was_edited := some true }

/-- A concrete activated-chat record for chat 7. -/
def sampleChat : ActivatedChat :=
  { _id := "g7"
    chat_id := 7
    chat_title := some "group seven"
    chat_type := some "supergroup"
    activated_at := .dateObj "2024-02-01T00:00:00.000Z" }

/-- An index already holding the transform of `chat42Msg` under its
identity, and nothing else. -/
def presentIndex : MeiliState :=
  fun k => if k = "m1" then some (transformMessage chat42Msg) else none

/-- Upserting a document that the index already stores under that key
changes nothing. -/
theorem upsertDoc_of_present (k : String) (d : IndexDoc) (st : MeiliState)
    (h : st k = some d) : upsertDoc k d st = st := by
  funext q
  by_cases hq : q = k
  · subst hq; simp [upsertDoc, h]
  · simp [upsertDoc, hq]

/-- Adding a batch whose documents are all already stored under their keys
changes nothing. -/
theorem addDocumentsM_of_present (docs : List IndexDoc) (st : MeiliState)
    (h : ∀ d ∈ docs, st d.id = some d) : addDocumentsM docs st = st := by
  induction docs with
  | nil => rfl
  | cons d rest ih =>
      have hd : st d.id = some d := h d (List.mem_cons_self d rest)
      show addDocumentsM rest (upsertDoc d.id d st) = st
      rw [upsertDoc_of_present d.id d st hd]
      exact ih (fun x hx => h x (List.mem_cons_of_mem d hx))

/-- Claim C9: on transport close or error the session is removed from the
registry; removal is idempotent (running the error handler after the close
handler for the same session changes nothing), and a member of the registry
other than the removed session is never removed. -/
theorem close_error_unregister_idempotent (reg : Finset Nat) (cid : Nat) :
    onErrorHandler (onCloseHandler reg cid) cid = onCloseHandler reg cid ∧
    cid ∉ onCloseHandler reg cid ∧
    (∀ s, s ∈ onCloseHandler reg cid ↔ s ∈ reg ∧ s ≠ cid) := by
  refine ⟨?_, ?_, ?_⟩
  · simp [onErrorHandler, onCloseHandler, Finset.erase_idem]
  · simp [onCloseHandler]
  · intro s
    simp [onCloseHandler, Finset.mem_erase, and_comm]

/-- Claim C10: an unparseable inbound frame, a frame whose type is neither
subscribe nor unsubscribe, and a frame with a missing or falsy `chatId`
all leave the subscription set unchanged; a well-formed subscribe adds its
`chatId`, a well-formed unsubscribe removes it, and no other session's set
is ever touched. -/
theorem control_frame_handling (reg : Nat → Finset Int) (sid : Nat) :
    (∀ subs, handleControlFrame none subs = subs) ∧
    (∀ t subs, handleControlFrame (some ⟨t, none⟩) subs = subs) ∧
    (∀ t subs, handleControlFrame (some ⟨t, some 0⟩) subs = subs) ∧
    (∀ t c subs, t ≠ "subscribe" → t ≠ "unsubscribe" →
      handleControlFrame (some ⟨t, c⟩) subs = subs) ∧
    (∀ c subs, c ≠ 0 →
      handleControlFrame (some ⟨"subscribe", some c⟩) subs = insert c subs) ∧
    (∀ c subs, c ≠ 0 →
      handleControlFrame (some ⟨"unsubscribe", some c⟩) subs = subs.erase c) ∧
    (∀ frame s, s ≠ sid → handleControlReg reg sid frame s = reg s) := by
  refine ⟨fun subs => rfl, ?_, ?_, ?_, ?_, ?_, ?_⟩
  · intro t subs
    simp [handleControlFrame, jsTruthyInt]
  · intro t subs
    simp [handleControlFrame, jsTruthyInt]
  · intro t c subs ht hu
    simp [handleControlFrame, ht, hu]
  · intro c subs hc
    simp [handleControlFrame, jsTruthyInt, hc]
  · intro c subs hc
    simp [handleControlFrame, jsTruthyInt, hc]
  · intro frame s hs
    simp [handleControlReg, hs]

/-- Concrete instantiation of `control_frame_handling`. -/
theorem control_frame_handling_witness :
    handleControlFrame none {5} = {5} ∧
    handleControlFrame (some ⟨"subscribe", some 7⟩) (∅ : Finset Int) = insert 7 ∅ ∧
    handleControlFrame (some ⟨"unsubscribe", some 7⟩) {7} = Finset.erase {7} 7 ∧
    handleControlFrame (some ⟨"ping", some 7⟩) {5} = {5} ∧
    handleControlFrame (some ⟨"subscribe", some 0⟩) {5} = {5} ∧
    handleControlReg (fun _ => {3}) 1 none 2 = {3} := by
  obtain ⟨h1, h2, h3, h4, h5, h6, h7⟩ := control_frame_handling (fun _ => {3}) 1
  exact ⟨h1 {5}, h5 7 ∅ (by decide), h6 7 {7} (by decide),
    h4 "ping" (some 7) {5} (by decide) (by decide), h3 "subscribe" {5}, h7 none 2 (by decide)⟩

/-- Claim C8: in incremental mode, a delete for an identity absent from the
index leaves the index unchanged (not an error), and a change whose index
write fails is skipped by the catch while every later change is still
processed. -/
theorem incremental_skip_and_continue (st : MeiliState) (k : String)
    (hk : st k = none) (ok : MsgChange → Bool) (c : MsgChange)
    (cs : List MsgChange) (hc : ok c = false) :
    syncChange ⟨.delete, k, none⟩ st = st ∧
    (∀ s0 : MeiliState, syncChangeList ok (c :: cs) s0 = syncChangeList ok cs s0) := by
  constructor
  · funext q
    by_cases hq : q = k
    · subst hq; simp [syncChange, removeDoc, hk]
    · simp [syncChange, removeDoc, hq]
  · intro s0
    simp [syncChangeList, syncChangeGuarded, hc]

/-- Concrete instantiation of `incremental_skip_and_continue`. -/
theorem incremental_skip_and_continue_witness :
    emptyIndex "zz" = none ∧
    (fun _ : MsgChange => false) ⟨.insert, "a", none⟩ = false ∧
    (syncChange ⟨.delete, "zz", none⟩ emptyIndex = emptyIndex ∧
      ∀ s0 : MeiliState,
        syncChangeList (fun _ => false) [⟨.insert, "a", none⟩] s0 =
          syncChangeList (fun _ => false) [] s0) :=
  ⟨rfl, rfl,
    incremental_skip_and_continue emptyIndex "zz" rfl (fun _ => false)
      ⟨.insert, "a", none⟩ [] rfl⟩

/-- Claim C3: an insert on the channel-activation collection delivers the
`new_group` event to every session with an open transport, whatever its
subscription set. -/
theorem new_group_global_broadcast (c : ActChange) (d : ActivatedChat)
    (s : Session) (hop : c.operationType = .insert)
    (hdoc : c.fullDocument = some d) (hopen : s.isOpen = true) :
    deliversGroup c s = true := by
  obtain ⟨op, fd⟩ := c
  simp only at hop hdoc
  subst hop; subst hdoc
  simp [deliversGroup, hopen]

/-- Concrete instantiation of `new_group_global_broadcast`: a session
subscribed only to chat 5 still receives the chat-7 activation event. -/
theorem new_group_global_broadcast_witness :
    (⟨.insert, some sampleChat⟩ : ActChange).operationType = .insert ∧
    (⟨.insert, some sampleChat⟩ : ActChange).fullDocument = some sampleChat ∧
    (⟨true, {5}⟩ : Session).isOpen = true ∧
    deliversGroup ⟨.insert, some sampleChat⟩ ⟨true, {5}⟩ = true :=
  ⟨rfl, rfl, rfl,
    new_group_global_broadcast ⟨.insert, some sampleChat⟩ sampleChat
      ⟨true, {5}⟩ rfl rfl rfl⟩

/-- Refutation of claim C2 as stated: for the delete of message `m1`, a
session with an open transport subscribed to `m1`'s original channel 42
receives nothing, and the frame the code builds carries
`chat_id: undefined` (dropped by JSON serialization), not the channel. -/
theorem delete_routing_cex :
    deliversChange ⟨.delete, "m1", none⟩ ⟨true, ({42} : Finset Int)⟩ = false ∧
    frameOfChange ⟨.delete, "m1", none⟩ =
      some ⟨"delete_message", .deletePayload "m1" none⟩ := by
  exact ⟨by decide, rfl⟩

/-- Claim C2 (amended): a delete produces a `delete_message` frame whose
payload carries the identity and an absent (`undefined`) `chat_id`, and it
is delivered exactly to the open sessions whose subscription set is empty
(global listeners); channel subscribers receive nothing because the change
event carries no pre-image. -/
theorem delete_broadcast_global_only (k : String) (d : Option MsgRecord)
    (s : Session) :
    frameOfChange ⟨.delete, k, d⟩ =
      some ⟨"delete_message", .deletePayload k none⟩ ∧
    deliversChange ⟨.delete, k, d⟩ s =
      (s.isOpen && decide (s.subscribedChats = ∅)) := by
  refine ⟨rfl, ?_⟩
  have hcard : decide (s.subscribedChats.card = 0) =
      decide (s.subscribedChats = ∅) := by
    simp [Finset.card_eq_zero]
  simp [deliversChange, frameOfChange, shouldSend, OutPayload.chat_id,
    jsTruthyInt, hcard]

/-- Refutation of claim C1 as stated: an insert whose payload carries the
channel identifier 0 is not delivered to an open session whose subscription
set contains 0, although the set contains the event's channel identifier. -/
theorem matching_rule_cex :
    (frameOfChange ⟨.insert, "m0", some zeroChatMsg⟩).map
        (fun f => f.payload.chat_id) = some (some 0) ∧
    (0 : Int) ∈ ({0} : Finset Int) ∧
    deliversChange ⟨.insert, "m0", some zeroChatMsg⟩
      ⟨true, ({0} : Finset Int)⟩ = false := by
  exact ⟨rfl, by decide, by decide⟩

/-- Claim C1 (amended): an open session receives a dispatched message event
exactly when its subscription set is empty (global listener), or the
event's payload carries a channel identifier that is truthy (present and
nonzero) and belongs to the set; in particular an empty-set session
receives every message event and a session subscribed only to a different
nonzero channel receives nothing. -/
theorem matching_rule (c : MsgChange) (f : OutFrame) (s : Session)
    (hf : frameOfChange c = some f) (hopen : s.isOpen = true) :
    deliversChange c s = true ↔
      (s.subscribedChats = ∅ ∨
        ∃ ch : Int, f.payload.chat_id = some ch ∧ ch ≠ 0 ∧
          ch ∈ s.subscribedChats) := by
  simp only [deliversChange, hf, hopen, Bool.true_and]
  cases hch : f.payload.chat_id with
  | none => simp [shouldSend, jsTruthyInt, hch, Finset.card_eq_zero]
  | some ch =>
      simp [shouldSend, jsTruthyInt, hch, Finset.card_eq_zero]

/-- Concrete instantiation of `matching_rule`: a `new_message` for chat 42
reaching a session subscribed to chat 42. -/
theorem matching_rule_witness :
    frameOfChange ⟨.insert, "m1", some chat42Msg⟩ =
      some ⟨"new_message", .docPayload (some chat42Msg)⟩ ∧
    (⟨true, ({42} : Finset Int)⟩ : Session).isOpen = true ∧
    (deliversChange ⟨.insert, "m1", some chat42Msg⟩
        ⟨true, ({42} : Finset Int)⟩ = true ↔
      (({42} : Finset Int) = ∅ ∨
        ∃ ch : Int,
          (OutPayload.docPayload (some chat42Msg)).chat_id = some ch ∧
            ch ≠ 0 ∧ ch ∈ ({42} : Finset Int))) :=
  ⟨rfl, rfl,
    matching_rule ⟨.insert, "m1", some chat42Msg⟩
      ⟨"new_message", .docPayload (some chat42Msg)⟩
      ⟨true, {42}⟩ rfl rfl⟩

/-- Claim C4: for a single identity, applying the change events of a store
mutation sequence to the incremental handler in feed order leaves the index
holding, at that identity, exactly the transform of the final store state. -/
theorem final_state_equivalence (i : String) (ops : List StoreOp)
    (s0 : Option MsgRecord) (st : MeiliState)
    (hinit : st i = Option.map transformMessage s0)
    (hops : ∀ op ∈ ops, opTargets i op) :
    (List.foldl (fun m c => syncChange c m) st (ops.map (changeOfStoreOp i))) i =
      Option.map transformMessage (ops.foldl applyStoreOp s0) := by
  induction ops generalizing s0 st with
  | nil => simpa using hinit
  | cons op rest ih =>
      have hop := hops op (List.mem_cons_self op rest)
      have hrest : ∀ o ∈ rest, opTargets i o :=
        fun o ho => hops o (List.mem_cons_of_mem op ho)
      cases op with
      | ins d =>
          have hid : (transformMessage d).id = i := hop
          simp only [List.map_cons, List.foldl_cons, changeOfStoreOp, applyStoreOp]
          refine ih (some d) _ ?_ hrest
          simp [syncChange, upsertDoc, hid]
      | upd d =>
          have hid : (transformMessage d).id = i := hop
          simp only [List.map_cons, List.foldl_cons, changeOfStoreOp, applyStoreOp]
          refine ih (some d) _ ?_ hrest
          simp [syncChange, upsertDoc, hid]
      | del =>
          simp only [List.map_cons, List.foldl_cons, changeOfStoreOp, applyStoreOp]
          refine ih none _ ?_ hrest
          simp [syncChange, removeDoc]

/-- Concrete instantiation of `final_state_equivalence`: insert then update
then delete of identity `m1`, starting from the empty index. -/
theorem final_state_equivalence_witness :
    emptyIndex "m1" = Option.map transformMessage none ∧
    (∀ op ∈ [StoreOp.ins chat42Msg, StoreOp.upd chat42Msg, StoreOp.del],
      opTargets "m1" op) ∧
    (List.foldl (fun m c => syncChange c m) emptyIndex
        ([StoreOp.ins chat42Msg, StoreOp.upd chat42Msg, StoreOp.del].map
          (changeOfStoreOp "m1"))) "m1" =
      Option.map transformMessage
        ([StoreOp.ins chat42Msg, StoreOp.upd chat42Msg, StoreOp.del].foldl
          applyStoreOp none) := by
  have hops : ∀ op ∈ [StoreOp.ins chat42Msg, StoreOp.upd chat42Msg, StoreOp.del],
      opTargets "m1" op := by
    intro op hop
    simp only [List.mem_cons, List.not_mem_nil, or_false] at hop
    rcases hop with h | h | h <;> subst h
    · exact rfl
    · exact rfl
    · exact trivial
  exact ⟨rfl, hops, final_state_equivalence "m1" _ none emptyIndex rfl hops⟩

/-- Unfolding equation of the batch loop in the stopping cases: past the end
of the record list, or on an empty fetched batch, the loop returns the
current state with zero counts. -/
theorem syncMessagesLoop_eq_stop (msgs : List MsgRecord) (b skip : Nat)
    (st : MeiliState)
    (h : ¬ skip < msgs.length ∨ ((msgs.drop skip).take b).length = 0) :
    syncMessagesLoop msgs b skip st = (st, 0, 0) := by
  rcases h with h | h
  · rw [syncMessagesLoop, dif_neg h]
  · by_cases hlt : skip < msgs.length
    · rw [syncMessagesLoop, dif_pos hlt, dif_pos h]
    · rw [syncMessagesLoop, dif_neg hlt]

/-- Unfolding equation of the batch loop in the recursive case. -/
theorem syncMessagesLoop_eq_rec (msgs : List MsgRecord) (b skip : Nat)
    (st : MeiliState) (hlt : skip < msgs.length)
    (hz : ¬ ((msgs.drop skip).take b).length = 0) :
    syncMessagesLoop msgs b skip st =
      ((syncMessagesLoop msgs b (skip + b)
          (addDocumentsM (((msgs.drop skip).take b).map transformMessage) st)).1,
        ((msgs.drop skip).take b).length +
          (syncMessagesLoop msgs b (skip + b)
            (addDocumentsM (((msgs.drop skip).take b).map transformMessage) st)).2.1,
        1 + (syncMessagesLoop msgs b (skip + b)
          (addDocumentsM (((msgs.drop skip).take b).map transformMessage) st)).2.2) := by
  conv_lhs => rw [syncMessagesLoop]
  rw [dif_pos hlt, dif_neg hz]

/-- Running the backfill batch loop over records whose transforms the index
already stores leaves the index state untouched, from any starting offset. -/
theorem syncMessagesLoop_state_fixed (msgs : List MsgRecord) (b skip : Nat)
    (st : MeiliState)
    (h : ∀ m ∈ msgs, st (transformMessage m).id = some (transformMessage m)) :
    (syncMessagesLoop msgs b skip st).1 = st := by
  induction skip, st using syncMessagesLoop.induct msgs b with
  | case1 skip st hlt hz =>
      rw [syncMessagesLoop_eq_stop msgs b skip st (Or.inr hz)]
  | case2 skip st hlt hz batch st1 ih =>
      have hfix : addDocumentsM (((msgs.drop skip).take b).map transformMessage) st
          = st := by
        refine addDocumentsM_of_present _ _ ?_
        intro d hd
        obtain ⟨m, hm, rfl⟩ := List.mem_map.mp hd
        exact h m (List.mem_of_mem_drop (List.mem_of_mem_take hm))
      have hst1 : st1 = st := hfix
      rw [hst1] at ih
      rw [syncMessagesLoop_eq_rec msgs b skip st hlt hz]
      rw [hfix]
      exact ih h
  | case3 skip st hlt =>
      rw [syncMessagesLoop_eq_stop msgs b skip st (Or.inl hlt)]

/-- The batch loop counts from offset `skip`: it processes exactly the
remaining records and runs exactly the ceiling number of batches. -/
theorem syncMessagesLoop_count (msgs : List MsgRecord) (b : Nat) (hb : 0 < b)
    (skip : Nat) (st : MeiliState) :
    (syncMessagesLoop msgs b skip st).2 =
      (msgs.length - skip, (msgs.length - skip + b - 1) / b) := by
  induction skip, st using syncMessagesLoop.induct msgs b with
  | case1 skip st hlt hz =>
      exfalso
      rw [List.length_take, List.length_drop] at hz
      omega
  | case2 skip st hlt hz batch st1 ih =>
      rw [syncMessagesLoop_eq_rec msgs b skip st hlt hz]
      have hblen : ((msgs.drop skip).take b).length = min b (msgs.length - skip) := by
        rw [List.length_take, List.length_drop]
      have ih2 := ih
      rw [Prod.ext_iff] at ih2 ⊢
      simp only at ih2 ⊢
      obtain ⟨ihp, ihn⟩ := ih2
      constructor
      · rw [hblen, ihp]
        omega
      · rw [ihn]
        by_cases hbl : b < msgs.length - skip
        · have e1 : msgs.length - (skip + b) + b - 1 = msgs.length - skip - 1 := by
            omega
          have e2 : msgs.length - skip + b - 1 = (msgs.length - skip - 1) + b := by
            omega
          rw [e1, e2, Nat.add_div_right _ hb]
          omega
        · have e1 : msgs.length - (skip + b) + b - 1 = b - 1 := by omega
          rw [e1, Nat.div_eq_of_lt (by omega : b - 1 < b)]
          have e2 : (msgs.length - skip + b - 1) / b = 1 := by
            refine Nat.div_eq_of_lt_le (by omega) (by omega)
          rw [e2]
  | case3 skip st hlt =>
      rw [syncMessagesLoop_eq_stop msgs b skip st (Or.inl hlt)]
      have h0 : msgs.length - skip = 0 := by omega
      rw [h0]
      simp [Nat.div_eq_of_lt (by omega : b - 1 < b)]

/-- Claim C5: upserts are idempotent by identity — re-applying any change
event a second time is a no-op after the first, and re-running backfill
over records whose transforms the index already stores leaves the index
state unchanged. -/
theorem backfill_upsert_idempotent (msgs : List MsgRecord) (b : Nat)
    (st : MeiliState)
    (h : ∀ m ∈ msgs, st (transformMessage m).id = some (transformMessage m)) :
    (∀ (c : MsgChange) (s : MeiliState),
      syncChange c (syncChange c s) = syncChange c s) ∧
    (syncMessages msgs b st).1 = st := by
  constructor
  · intro c s
    obtain ⟨op, k, fd⟩ := c
    cases op with
    | insert =>
        cases fd with
        | none => rfl
        | some d =>
            funext q
            by_cases hq : q = (transformMessage d).id <;>
              simp [syncChange, upsertDoc, hq]
    | update =>
        cases fd with
        | none => rfl
        | some d =>
            funext q
            by_cases hq : q = (transformMessage d).id <;>
              simp [syncChange, upsertDoc, hq]
    | delete =>
        funext q
        by_cases hq : q = k <;> simp [syncChange, removeDoc, hq]
    | invalidate => rfl
  · exact syncMessagesLoop_state_fixed msgs b 0 st h

/-- Concrete instantiation of `backfill_upsert_idempotent`: one record whose
transform is already indexed, batch size 1000. -/
theorem backfill_upsert_idempotent_witness :
    (∀ m ∈ [chat42Msg],
      presentIndex (transformMessage m).id = some (transformMessage m)) ∧
    ((∀ (c : MsgChange) (s : MeiliState),
        syncChange c (syncChange c s) = syncChange c s) ∧
      (syncMessages [chat42Msg] 1000 presentIndex).1 = presentIndex) := by
  have h : ∀ m ∈ [chat42Msg],
      presentIndex (transformMessage m).id = some (transformMessage m) := by
    intro m hm
    rw [List.mem_singleton] at hm
    subst hm
    rfl
  exact ⟨h, backfill_upsert_idempotent [chat42Msg] 1000 presentIndex h⟩

/-- Claim C6: for any positive batch size, backfill processes exactly the
total number of records and runs exactly the ceiling of total divided by
batch size many batches. -/
theorem backfill_batch_count (msgs : List MsgRecord) (b : Nat)
    (st : MeiliState) (hb : 0 < b) :
    (syncMessages msgs b st).2.1 = msgs.length ∧
    (syncMessages msgs b st).2.2 = (msgs.length + b - 1) / b := by
  have h := syncMessagesLoop_count msgs b hb 0 st
  rw [Prod.ext_iff] at h
  simp only [Nat.sub_zero] at h
  exact ⟨h.1, h.2⟩

/-- Concrete instantiation of `backfill_batch_count`: 2,500 records with
batch size 1,000 index 2,500 documents in 3 batches. -/
theorem backfill_batch_count_witness :
    0 < 1000 ∧
    (syncMessages (List.replicate 2500 chat42Msg) 1000 emptyIndex).2.1 = 2500 ∧
    (syncMessages (List.replicate 2500 chat42Msg) 1000 emptyIndex).2.2 = 3 := by
  have h := backfill_batch_count (List.replicate 2500 chat42Msg) 1000 emptyIndex
    (by norm_num)
  rw [List.length_replicate] at h
  refine ⟨by norm_num, h.1, ?_⟩
  rw [h.2]
